import Mathlib

/-!
Verification development for the Luna venue-discovery backend
(`Luna-Backend`: `main.py`, `agent.py`, `utils/distance.py`,
`models/db_models.py`, `database.py`).

The persistent store is embedded as a record of row lists (one list per
table in `models/db_models.py`).  Each API operation of `main.py` becomes a
Lean function from a database state to `Except ApiError (response × state)`;
the state returned is the one committed by the handler.  Timestamps
(`datetime.now()`) and random draws (`random.randint`, `random.choice`,
`uuid.uuid4`) are passed in as explicit parameters, and the outcome of the
second, independent commit of the action-item transaction is a `Bool`
parameter, mirroring the fact that these are environment inputs of the
Python code.  The session of `database.py` is created with
`autoflush=False`, so a `SELECT` issued after an in-session attribute
mutation still reads the previously committed rows; the embedding of
`confirm_action_item` reads the pre-update lists accordingly.
-/

namespace Luna

/-- Row of the `users` table (`UserDB`).  Only the columns read by the
modelled handlers are kept: `id`, `latitude`, `longitude`.  Name, avatar and
bio are presentation-only in the modelled code paths. -/
structure User where
  id : String
  latitude : ℚ
  longitude : ℚ
deriving DecidableEq, Repr

/-- Row of the `venues` table (`VenueDB`): `id`, `name`, `category` and the
coordinates. -/
structure Venue where
  id : String
  name : String
  category : String
  latitude : ℚ
  longitude : ℚ
deriving DecidableEq, Repr

/-- Row of the `interests` table (`InterestDB`); primary key is the pair
`(user_id, venue_id)`. -/
structure Interest where
  user_id : String
  venue_id : String
  created_at : Nat
deriving DecidableEq, Repr

/-- Row of the `user_interests` table (`UserInterestDB`): a category tag of
a user (the `id` column is never read by the modelled handlers). -/
structure UserInterest where
  user_id : String
  interest_category : String
deriving DecidableEq, Repr

/-- Row of the `friendships` table (`FriendshipDB`); one row per unordered
pair, both directions queried. -/
structure Friendship where
  user_id : String
  friend_id : String
deriving DecidableEq, Repr

/-- Row of the `action_items` table (`ActionItemDB`). -/
structure ActionItem where
  id : String
  venue_id : String
  interested_user_ids : List String
  action_type : String
  action_code : String
  description : String
  threshold_met : Bool
  status : String
  created_at : Nat
  expires_at : Option Nat
  archived_at : Option Nat
deriving DecidableEq, Repr

/-- Row of the `action_item_confirmations` table
(`ActionItemConfirmationDB`). -/
structure Confirmation where
  id : String
  action_item_id : String
  user_id : String
  initiator_id : String
  status : String
  responded_at : Option Nat
  created_at : Nat
deriving DecidableEq, Repr

/-- Row of the `chats` table (`ChatDB`). -/
structure Chat where
  id : String
  action_item_id : Option String
  venue_id : String
  created_by : String
  created_at : Nat
deriving DecidableEq, Repr

/-- Row of the `chat_participants` table (`ChatParticipantDB`); composite
primary key `(chat_id, user_id)`. -/
structure ChatParticipant where
  chat_id : String
  user_id : String
  joined_at : Nat
deriving DecidableEq, Repr

/-- Row of the `activities` table (`ActivityDB`). -/
structure Activity where
  id : String
  user_id : String
  venue_id : String
  action : String
  created_at : Nat
deriving DecidableEq, Repr

/-- The whole persistent store: one list per table. -/
structure DB where
  users : List User
  venues : List Venue
  interests : List Interest
  user_interests : List UserInterest
  friendships : List Friendship
  action_items : List ActionItem
  confirmations : List Confirmation
  chats : List Chat
  chat_participants : List ChatParticipant
  activities : List Activity
deriving DecidableEq, Repr

/-- The empty database (state right after `init_db` with no seeding). -/
def DB.empty : DB :=
  { users := [], venues := [], interests := [], user_interests := [],
    friendships := [], action_items := [], confirmations := [], chats := [],
    chat_participants := [], activities := [] }

/-- Error taxonomy of the handlers: `HTTPException` with status 404, 403
or 400. -/
inductive ApiError where
  | notFound (detail : String)
  | forbidden (detail : String)
  | badRequest (detail : String)
deriving DecidableEq, Repr

/-- `utils/distance.py`, `calculate_proximity_score`: tiered proximity
score, boundaries inclusive on the lower tier. -/
def calculate_proximity_score (distance_km : ℚ) : ℚ :=
  if distance_km ≤ 1 then 1
  else if distance_km ≤ 3 then 8/10
  else if distance_km ≤ 5 then 6/10
  else if distance_km ≤ 8 then 4/10
  else 2/10

/-- The random draws consumed by `action_item_agent` in `agent.py`:
`random.randint(1000, 9999)` for the id and the code, and the index picked
by `random.choice` over the four description templates. -/
structure AgentRand where
  idNum : Nat
  codeNum : Nat
  descIdx : Nat
deriving DecidableEq, Repr

/-- The dictionary returned by `action_item_agent` (`agent.py`).  The
source returns the keys `action_item_created`, `action_item_id`,
`description`, `action_code`, `action_type`, `interested_user_ids`,
`threshold_met`, `created_at` and `notification_payload`; it returns **no**
`expires_at` key.  A possibly-missing dictionary key is embedded as an
`Option`, so `expires_at` is carried as an `Option Nat` that the agent
always leaves at `none`. -/
structure AgentResult where
  action_item_created : Bool
  action_item_id : String
  description : String
  action_code : String
  action_type : String
  interested_user_ids : List String
  threshold_met : Bool
  created_at : Nat
  expires_at : Option Nat
deriving DecidableEq, Repr

/-- The fixed list of bookable categories in `agent.py`. -/
def booking_categories : List String :=
  ["restaurant", "bar", "club", "lounge", "bistro", "cafe"]

/-- Lower-casing of a Python `str.lower()` call (ASCII suffices for the
category and tag strings of this code base). -/
def lowerStr (s : String) : String :=
  String.mk (s.data.map Char.toLower)

/-- `needle` is a prefix of `hay` (character lists). -/
def isPrefixL : List Char → List Char → Bool
  | [], _ => true
  | _ :: _, [] => false
  | a :: as, b :: bs => a == b && isPrefixL as bs

/-- Python's `needle in hay` substring test on character lists. -/
def isSubstringL (needle : List Char) : List Char → Bool
  | [] => isPrefixL needle []
  | c :: t => isPrefixL needle (c :: t) || isSubstringL needle t

/-- The four description templates of `agent.py` (the numeric count is
interpolated by the source; the template index is what `random.choice`
picks). -/
def agentDescriptions (user_count : Nat) : List String :=
  [s!"{user_count} friends interested - coordinate plans!",
   s!"{user_count} friends ready to go!",
   s!"Goal reached! {user_count} people want to visit",
   s!"Perfect group size - {user_count} interested!"]

/-- `agent.py`, `action_item_agent`: returns `action_item_created := false`
below the threshold of 5 distinct interested users, and otherwise an
action-item payload whose `action_type` is `book_venue` exactly when a
bookable category occurs as a substring of the lower-cased venue category.
The returned dictionary never carries an `expires_at` key (`none`). -/
def action_item_agent (venue_id : String) (interested_user_ids : List String)
    (venue_category : String) (rnd : AgentRand) (now : Nat) : AgentResult :=
  let threshold := 5
  let user_count := interested_user_ids.length
  if user_count < threshold then
    { action_item_created := false, action_item_id := "", description := "",
      action_code := "", action_type := "", interested_user_ids := [],
      threshold_met := false, created_at := now, expires_at := none }
  else
    let n1 := rnd.idNum
    let n2 := rnd.codeNum
    let action_item_id := s!"action_{venue_id}_{n1}"
    let action_code := s!"LUNA-{venue_id}-{n2}"
    let catLower := lowerStr venue_category
    let action_type :=
      if booking_categories.any (fun cat => isSubstringL cat.data catLower.data)
      then "book_venue" else "visit_venue"
    let descs := agentDescriptions user_count
    let description := descs.getD (rnd.descIdx % descs.length) ""
    { action_item_created := true, action_item_id, description, action_code,
      action_type, interested_user_ids, threshold_met := true,
      created_at := now, expires_at := none }

/-- Response body of `POST /interests` (`InterestResponse` in `main.py`):
`success`, `message`, and whether an `action_item` payload was attached. -/
structure InterestResponse where
  success : Bool
  message : String
  action_item_created : Bool
deriving DecidableEq, Repr

/-- `main.py`, `express_interest` (`POST /interests`).  Validates user and
venue (404 otherwise).  If an interest row for `(user_id, venue_id)`
exists, toggles off: deletes that row and every activity row of the pair
with action `interested`, then commits.  Otherwise toggles on: inserts the
interest row and a paired activity row and commits them first; then, in a
separate transaction, recomputes the venue's interested users, looks for an
existing action item with status `pending` for the venue, and calls
`action_item_agent`.  The construction of the new `ActionItemDB` row reads
`agent_response["expires_at"]`; since the agent's dictionary has no such
key, this raises `KeyError`, which the surrounding `except` swallows,
returning success with no action item.  Had the key been present, the
second commit could still fail (`commitOk = false`), in which case the
handler rolls the action item back and still returns success. -/
def express_interest (db : DB) (user_id venue_id : String) (now : Nat)
    (rnd : AgentRand) (commitOk : Bool) :
    Except ApiError (InterestResponse × DB) :=
  match db.users.find? (fun u => u.id == user_id) with
  | none => .error (.notFound s!"User with id {user_id} not found")
  | some _user =>
  match db.venues.find? (fun v => v.id == venue_id) with
  | none => .error (.notFound s!"Venue with id {venue_id} not found")
  | some venue =>
    if db.interests.any (fun i => i.user_id == user_id && i.venue_id == venue_id) then
      -- toggle off: delete the interest row and the paired activities, commit
      let interests' := db.interests.filter
        (fun i => !(i.user_id == user_id && i.venue_id == venue_id))
      let activities' := db.activities.filter
        (fun a => !(a.user_id == user_id && a.venue_id == venue_id && a.action == "interested"))
      .ok ({ success := true, message := s!"Interest removed for {venue.name}",
             action_item_created := false },
           { db with interests := interests', activities := activities' })
    else
      -- toggle on: insert interest + activity, commit first
      let newInterest : Interest := { user_id, venue_id, created_at := now }
      let newActivity : Activity :=
        { id := s!"activity_{user_id}_{venue_id}_{now}", user_id, venue_id,
          action := "interested", created_at := now }
      let db1 : DB := { db with interests := db.interests ++ [newInterest],
                                activities := db.activities ++ [newActivity] }
      -- action item logic (separate transaction)
      let interested_user_ids :=
        (db1.interests.filter (fun i => i.venue_id == venue_id)).map (fun i => i.user_id)
      let existing_action_item := db1.action_items.any
        (fun a => a.venue_id == venue_id && a.status == "pending")
      let agent_response :=
        action_item_agent venue_id interested_user_ids venue.category rnd now
      if agent_response.action_item_created && !existing_action_item then
        match agent_response.expires_at with
        | none =>
          -- `agent_response["expires_at"]` raises `KeyError`; the outer
          -- `except` logs it and returns success (interest already saved)
          .ok ({ success := true, message := "Interest recorded successfully",
                 action_item_created := false }, db1)
        | some exp =>
          let action_item : ActionItem :=
            { id := agent_response.action_item_id, venue_id,
              interested_user_ids := agent_response.interested_user_ids,
              action_type := agent_response.action_type,
              action_code := agent_response.action_code,
              description := agent_response.description,
              threshold_met := true, status := "active",
              created_at := agent_response.created_at,
              expires_at := some exp, archived_at := none }
          if commitOk then
            .ok ({ success := true, message := "Interest recorded successfully",
                   action_item_created := true },
                 { db1 with action_items := db1.action_items ++ [action_item] })
          else
            -- commit failed: roll back the action item, interest stays
            .ok ({ success := true, message := "Interest recorded successfully",
                   action_item_created := false }, db1)
      else
        .ok ({ success := true, message := "Interest recorded successfully",
               action_item_created := false }, db1)

/-- `main.py`, `get_interested_count`: number of interest rows of the
venue (all users). -/
def get_interested_count (db : DB) (venue_id : String) : Nat :=
  db.interests.countP (fun i => i.venue_id == venue_id)

/-- The friend-id set of a user, as collected by the bidirectional
friendship scan in `count_friends_interested` (`main.py`): for each row
with `user_id = u` take `friend_id`, for each other row with
`friend_id = u` take `user_id`.  Only membership in this collection is ever
queried, so a list stands in for the Python set. -/
def friendIdsOf (db : DB) (user_id : String) : List String :=
  db.friendships.filterMap (fun f =>
    if f.user_id == user_id then some f.friend_id
    else if f.friend_id == user_id then some f.user_id
    else none)

/-- `main.py`, `count_friends_interested`: count of interest rows of the
venue whose `user_id` is in the friend set. -/
def count_friends_interested (db : DB) (user_id venue_id : String) : Nat :=
  let friend_ids := friendIdsOf db user_id
  if friend_ids.isEmpty then 0
  else db.interests.countP
    (fun i => i.venue_id == venue_id && friend_ids.contains i.user_id)

/-- The tuple returned by `calculate_recommendation_score` (`main.py`):
score, reason, friends-interested count, total-interested count and the
distance.  The post-hoc breakdown percentages are a pure function of the
four component scores and are omitted from the record. -/
structure ScoreResult where
  score : ℚ
  reason : String
  friends_interested : Nat
  total_interested : Nat
  distance_km : ℚ
deriving DecidableEq, Repr

/-- `main.py`, `calculate_recommendation_score`.  The haversine distance of
`utils/distance.py` is a pure trigonometric function of the two coordinate
pairs; it is abstracted as the `dist` parameter (any function of user and
venue rows that reads only their coordinates — every claim below holds for
all such functions).  Popularity counts the interest rows of **other**
users; the category match tests case-insensitive substring containment in
either direction between a user tag and the venue category; the friend
signal counts interested friends; proximity applies the tier function to
the distance.  Returns the zero result when user or venue is missing. -/
def calculate_recommendation_score (dist : User → Venue → ℚ) (db : DB)
    (user_id venue_id : String) : ScoreResult :=
  match db.users.find? (fun u => u.id == user_id),
        db.venues.find? (fun v => v.id == venue_id) with
  | some user, some venue =>
    let distance_km := dist user venue
    let total_interested := get_interested_count db venue_id
    let other_users_interested := db.interests.countP
      (fun i => i.venue_id == venue_id && i.user_id != user_id)
    let friends_interested := count_friends_interested db user_id venue_id
    let popularity_score := min ((other_users_interested : ℚ) / 3) 1 * 3
    let user_cats := (db.user_interests.filter
      (fun c => c.user_id == user_id)).map (fun c => c.interest_category)
    let vcat := lowerStr venue.category
    let category_match : ℚ :=
      if user_cats.any (fun c =>
          isSubstringL (lowerStr c).data vcat.data ||
          isSubstringL vcat.data (lowerStr c).data)
      then 1 else 0
    let category_score := category_match * (5/2)
    let friend_score := min ((friends_interested : ℚ) / 3) 1 * (5/2)
    let proximity_score := calculate_proximity_score distance_km * 2
    let score := popularity_score + category_score + friend_score + proximity_score
    let reasons :=
      (if other_users_interested > 0 then ["Popular venue"] else []) ++
      (if category_match == 1 then ["Matches your interests"] else []) ++
      (if distance_km ≤ 2 then [s!"{distance_km} km away"] else [])
    let reason := if reasons.isEmpty then "New venue to explore"
                  else ", ".intercalate reasons
    { score, reason, friends_interested, total_interested, distance_km }
  | _, _ =>
    { score := 0, reason := "Invalid user or venue", friends_interested := 0,
      total_interested := 0, distance_km := 0 }

/-- Rounding to one decimal applied at the API boundary
(`round(score, 1)`; Python rounds ties to even, which differs from this
round-half-up only at exact .x5 halfway points — no claim below depends on
the tie direction). -/
def round1 (q : ℚ) : ℚ := (round (q * 10) : ℤ) / 10

/-- One entry of the `GET /recommendations` response. -/
structure RecEntry where
  venue_id : String
  score : ℚ
  reason : String
  already_interested : Bool
  friends_interested : Nat
  total_interested : Nat
deriving DecidableEq, Repr

/-- `main.py`, `get_recommendations` (`GET /recommendations`): 404 when
the user is missing; otherwise one scored entry per venue, sorted by
`recommendations.sort(key=lambda x: -x["score"])` — Python's stable sort
ascending on the negated rounded score, i.e. a stable sort descending on
the rounded score, embedded as `List.mergeSort` (stable) with that
comparator. -/
def get_recommendations (dist : User → Venue → ℚ) (db : DB)
    (user_id : String) : Except ApiError (List RecEntry) :=
  match db.users.find? (fun u => u.id == user_id) with
  | none => .error (.notFound s!"User with id {user_id} not found")
  | some _user =>
    let interestedIds := (db.interests.filter
      (fun i => i.user_id == user_id)).map (fun i => i.venue_id)
    let recs := db.venues.map (fun v =>
      let r := calculate_recommendation_score dist db user_id v.id
      { venue_id := v.id, score := round1 r.score, reason := r.reason,
        already_interested := interestedIds.contains v.id,
        friends_interested := r.friends_interested,
        total_interested := r.total_interested : RecEntry })
    .ok (recs.mergeSort (fun a b => decide (b.score ≤ a.score)))

/-- One confirmation summary entry as returned by
`initiate_action_item`. -/
structure ConfEntry where
  user_id : String
  status : String
  responded_at : Option Nat
deriving DecidableEq, Repr

/-- Projection of a confirmation row to its response summary. -/
def confToEntry (c : Confirmation) : ConfEntry :=
  { user_id := c.user_id, status := c.status, responded_at := c.responded_at }

/-- `main.py`, `initiate_action_item` (`POST /action-items/{id}/initiate`):
404 when the item is missing, 400 when its status is not `active`, 403
when the initiator is not among `interested_user_ids`.  If confirmation
rows already exist for the item they are returned unchanged; otherwise one
`pending` row is created per interested user except the initiator (row ids
drawn from the `uuid` parameter, mirroring `uuid.uuid4()`). -/
def initiate_action_item (db : DB) (item_id user_id : String) (now : Nat)
    (uuid : Nat → String) : Except ApiError (List ConfEntry × DB) :=
  match db.action_items.find? (fun a => a.id == item_id) with
  | none => .error (.notFound s!"Action item {item_id} not found")
  | some item =>
    if item.status != "active" then
      .error (.badRequest s!"Action item is not active")
    else if !(item.interested_user_ids.contains user_id) then
      .error (.forbidden "User not authorized for this action item")
    else
      let existing := db.confirmations.filter
        (fun c => c.action_item_id == item_id)
      if !existing.isEmpty then
        .ok (existing.map confToEntry, db)
      else
        let others := item.interested_user_ids.filter (fun uid => uid != user_id)
        let newConfs := others.enum.map (fun p =>
          { id := uuid p.1, action_item_id := item_id, user_id := p.2,
            initiator_id := user_id, status := "pending",
            responded_at := none, created_at := now : Confirmation })
        .ok (newConfs.map confToEntry,
             { db with confirmations := db.confirmations ++ newConfs })

/-- Response body of `POST /action-items/{id}/confirm`. -/
structure ConfirmResponse where
  success : Bool
  confirmed_count : Nat
  chat_created : Bool
  chat_id : Option String
deriving DecidableEq, Repr

/-- `main.py`, `confirm_action_item` (`POST /action-items/{id}/confirm`):
404 when no confirmation row exists for `(item_id, user_id)`, 400 when
that row is not `pending`.  The row is set to `confirmed` in the session;
with `autoflush=False` the subsequent count and participant queries read
the still-committed (pre-update) rows, hence the explicit `+ 1` for this
confirmation and `+ 1` for the implicitly confirmed initiator.  If the
total is at least 2 (it always is) and no chat is linked to the item, a
chat is created — provided the action item row exists, with no condition
on its status — seeded with the initiator, every previously confirmed
user and the confirming user; if a chat already exists the confirming user
is added to it. -/
def confirm_action_item (db : DB) (item_id user_id : String) (now : Nat)
    (chatUuid : String) : Except ApiError (ConfirmResponse × DB) :=
  match db.confirmations.find?
      (fun c => c.action_item_id == item_id && c.user_id == user_id) with
  | none => .error (.notFound "Confirmation not found for this user")
  | some conf =>
    if conf.status != "pending" then
      .error (.badRequest s!"Already responded with status {conf.status}")
    else
      -- committed at the end of the handler
      let confirmations' := db.confirmations.map (fun c =>
        if c.action_item_id == item_id && c.user_id == user_id then
          { c with status := "confirmed", responded_at := some now }
        else c)
      -- SELECT count(..) WHERE status = 'confirmed': pre-update rows
      let dbConfirmed := db.confirmations.filter
        (fun c => c.action_item_id == item_id && c.status == "confirmed")
      let confirmed_count := dbConfirmed.length + 1 + 1
      if confirmed_count ≥ 2 then
        match db.chats.find? (fun ch => ch.action_item_id == some item_id) with
        | none =>
          match db.action_items.find? (fun a => a.id == item_id) with
          | some item =>
            let chat : Chat :=
              { id := chatUuid, action_item_id := some item_id,
                venue_id := item.venue_id, created_by := conf.initiator_id,
                created_at := now }
            let initiatorPart : ChatParticipant :=
              { chat_id := chatUuid, user_id := conf.initiator_id, joined_at := now }
            let confirmedParts := (dbConfirmed.filter
              (fun c => c.user_id != conf.initiator_id)).map (fun c =>
                { chat_id := chatUuid, user_id := c.user_id,
                  joined_at := now : ChatParticipant })
            let currentPart : ChatParticipant :=
              { chat_id := chatUuid, user_id := user_id, joined_at := now }
            .ok ({ success := true, confirmed_count, chat_created := true,
                   chat_id := some chatUuid },
                 { db with confirmations := confirmations',
                           chats := db.chats ++ [chat],
                           chat_participants := db.chat_participants ++
                             [initiatorPart] ++ confirmedParts ++ [currentPart] })
          | none =>
            .ok ({ success := true, confirmed_count, chat_created := false,
                   chat_id := none },
                 { db with confirmations := confirmations' })
        | some existing_chat =>
          .ok ({ success := true, confirmed_count, chat_created := false,
                 chat_id := some existing_chat.id },
               { db with confirmations := confirmations',
                         chat_participants := db.chat_participants ++
                           [{ chat_id := existing_chat.id, user_id := user_id,
                              joined_at := now }] })
      else
        .ok ({ success := true, confirmed_count, chat_created := false,
               chat_id := none },
             { db with confirmations := confirmations' })

/-- `main.py`, `decline_action_item` (`POST /action-items/{id}/decline`):
same preconditions as confirm, sets the row to `declined`, no further side
effects. -/
def decline_action_item (db : DB) (item_id user_id : String) (now : Nat) :
    Except ApiError DB :=
  match db.confirmations.find?
      (fun c => c.action_item_id == item_id && c.user_id == user_id) with
  | none => .error (.notFound "Confirmation not found for this user")
  | some conf =>
    if conf.status != "pending" then
      .error (.badRequest s!"Already responded with status {conf.status}")
    else
      .ok { db with confirmations := db.confirmations.map (fun c =>
              if c.action_item_id == item_id && c.user_id == user_id then
                { c with status := "declined", responded_at := some now }
              else c) }

/-- `main.py`, `dismiss_action_item` (`DELETE /action-items/{id}`): 404
when the item is missing, 403 when the user is not among
`interested_user_ids`; otherwise sets the status to `dismissed` — with no
check of the current status and **without** touching `archived_at`. -/
def dismiss_action_item (db : DB) (item_id user_id : String) :
    Except ApiError DB :=
  match db.action_items.find? (fun a => a.id == item_id) with
  | none => .error (.notFound s!"Action item {item_id} not found")
  | some item =>
    if !(item.interested_user_ids.contains user_id) then
      .error (.forbidden "User not authorized for this action item")
    else
      .ok { db with action_items := db.action_items.map (fun a =>
              if a.id == item_id then { a with status := "dismissed" } else a) }

/-- `main.py`, `dismiss_action_item_put` (`PUT /action-items/{id}/dismiss`):
like the DELETE variant but also sets `archived_at` to now; again no check
of the current status. -/
def dismiss_action_item_put (db : DB) (item_id user_id : String) (now : Nat) :
    Except ApiError DB :=
  match db.action_items.find? (fun a => a.id == item_id) with
  | none => .error (.notFound s!"Action item {item_id} not found")
  | some item =>
    if !(item.interested_user_ids.contains user_id) then
      .error (.forbidden "User not authorized for this action item")
    else
      .ok { db with action_items := db.action_items.map (fun a =>
              if a.id == item_id then
                { a with status := "dismissed", archived_at := some now }
              else a) }

/-- `main.py`, `complete_action_item` (`POST /action-items/{id}/complete`):
404 / 403 as for dismiss; sets the status to `completed` (and nothing
else). -/
def complete_action_item (db : DB) (item_id user_id : String) :
    Except ApiError DB :=
  match db.action_items.find? (fun a => a.id == item_id) with
  | none => .error (.notFound s!"Action item {item_id} not found")
  | some item =>
    if !(item.interested_user_ids.contains user_id) then
      .error (.forbidden "User not authorized for this action item")
    else
      .ok { db with action_items := db.action_items.map (fun a =>
              if a.id == item_id then { a with status := "completed" } else a) }

/-- An action item is due for the expiry sweep: status `active` and
`expires_at <= now` (a SQL comparison that is false when `expires_at` is
NULL). -/
def expireDue (a : ActionItem) (now : Nat) : Bool :=
  a.status == "active" &&
    (match a.expires_at with | some e => decide (e ≤ now) | none => false)

/-- `main.py`, `expire_action_items` (`GET /action-items/expire`): every
active item whose `expires_at` has passed is set to `expired` with
`archived_at = now`; returns the number of items transitioned. -/
def expire_action_items (db : DB) (now : Nat) : Nat × DB :=
  let expired_count := db.action_items.countP (fun a => expireDue a now)
  (expired_count,
   { db with action_items := db.action_items.map (fun a =>
       if expireDue a now then
         { a with status := "expired", archived_at := some now }
       else a) })

/-- One invocation of a state-mutating exposed operation, with its
environment inputs (time, random draws, commit outcome). -/
inductive Op where
  | toggle (user_id venue_id : String) (now : Nat) (rnd : AgentRand) (commitOk : Bool)
  | initiate (item_id user_id : String) (now : Nat) (uuid : Nat → String)
  | confirm (item_id user_id : String) (now : Nat) (chatUuid : String)
  | decline (item_id user_id : String) (now : Nat)
  | dismiss (item_id user_id : String)
  | dismissPut (item_id user_id : String) (now : Nat)
  | complete (item_id user_id : String)
  | expire (now : Nat)

/-- The state committed by a handler returning a response paired with a
state, or the unchanged state when it raises. -/
def commitOf {ε ρ : Type _} (db : DB) (e : Except ε (ρ × DB)) : DB :=
  match e with
  | .ok p => p.2
  | .error _ => db

/-- The state committed by a handler returning just a state, or the
unchanged state when it raises. -/
def commitOf1 {ε : Type _} (db : DB) (e : Except ε DB) : DB :=
  match e with
  | .ok db' => db'
  | .error _ => db

theorem commitOf_ok {ε ρ : Type _} (db : DB) (p : ρ × DB) :
    commitOf db (.ok p : Except ε (ρ × DB)) = p.2 := rfl

theorem commitOf_error {ε ρ : Type _} (db : DB) (e : ε) :
    commitOf db (.error e : Except ε (ρ × DB)) = db := rfl

theorem commitOf1_ok {ε : Type _} (db db' : DB) :
    commitOf1 db (.ok db' : Except ε DB) = db' := rfl

theorem commitOf1_error {ε : Type _} (db : DB) (e : ε) :
    commitOf1 db (.error e : Except ε DB) = db := rfl

/-- The state reached by one operation: the committed state on success,
the unchanged state when the handler raises. -/
def applyOp (op : Op) (db : DB) : DB :=
  match op with
  | .toggle u v now rnd cOk => commitOf db (express_interest db u v now rnd cOk)
  | .initiate i u now uuid => commitOf db (initiate_action_item db i u now uuid)
  | .confirm i u now cu => commitOf db (confirm_action_item db i u now cu)
  | .decline i u now => commitOf1 db (decline_action_item db i u now)
  | .dismiss i u => commitOf1 db (dismiss_action_item db i u)
  | .dismissPut i u now => commitOf1 db (dismiss_action_item_put db i u now)
  | .complete i u => commitOf1 db (complete_action_item db i u)
  | .expire now => (expire_action_items db now).2

/-- The state reached by a sequence of operations. -/
def applyOps (ops : List Op) (db : DB) : DB :=
  ops.foldl (fun s op => applyOp op s) db

/-- `P` holds of the success value; failure refutes. -/
def onOk {ε α : Type _} (e : Except ε α) (P : α → Prop) : Prop :=
  match e with
  | .ok a => P a
  | .error _ => False

theorem onOk_ok {ε α : Type _} (a : α) (P : α → Prop) :
    onOk (.ok a : Except ε α) P = P a := rfl

theorem onOk_error {ε α : Type _} (e : ε) (P : α → Prop) :
    onOk (.error e : Except ε α) P = False := rfl

section HelperLemmas

/-- The agent's dictionary never carries an `expires_at` key. -/
theorem action_item_agent_expires_at (venue_id : String)
    (ids : List String) (cat : String) (rnd : AgentRand) (now : Nat) :
    (action_item_agent venue_id ids cat rnd now).expires_at = none := by
  simp only [action_item_agent]
  split <;> rfl

/-- `express_interest` with an unknown user is a 404. -/
theorem express_interest_user_none (db : DB) (u v : String) (now : Nat)
    (rnd : AgentRand) (cOk : Bool)
    (hu : db.users.find? (fun x => x.id == u) = none) :
    express_interest db u v now rnd cOk =
      .error (.notFound s!"User with id {u} not found") := by
  unfold express_interest
  rw [hu]

/-- `express_interest` with an unknown venue is a 404. -/
theorem express_interest_venue_none (db : DB) (u v : String) (now : Nat)
    (rnd : AgentRand) (cOk : Bool) (user : User)
    (hu : db.users.find? (fun x => x.id == u) = some user)
    (hv : db.venues.find? (fun x => x.id == v) = none) :
    express_interest db u v now rnd cOk =
      .error (.notFound s!"Venue with id {v} not found") := by
  unfold express_interest
  rw [hu, hv]

/-- Toggle-off: with an existing interest row, `express_interest` deletes
the row and the paired `interested` activities and reports success. -/
theorem express_interest_toggle_off_eq (db : DB) (u v : String) (now : Nat)
    (rnd : AgentRand) (cOk : Bool) (user : User) (venue : Venue)
    (hu : db.users.find? (fun x => x.id == u) = some user)
    (hv : db.venues.find? (fun x => x.id == v) = some venue)
    (hyes : (db.interests.any fun i => i.user_id == u && i.venue_id == v) = true) :
    express_interest db u v now rnd cOk =
      .ok ({ success := true, message := s!"Interest removed for {venue.name}",
             action_item_created := false },
           { db with
             interests := db.interests.filter
               (fun i => !(i.user_id == u && i.venue_id == v)),
             activities := db.activities.filter
               (fun a => !(a.user_id == u && a.venue_id == v && a.action == "interested")) }) := by
  unfold express_interest
  rw [hu, hv, hyes]
  rfl

/-- Toggle-on: with no existing interest row, `express_interest` inserts
the interest and activity rows and reports success with **no** action
item, whatever the interest count, the agent randomness and the commit
outcome: the action-item branch always dies on the absent `expires_at`
key. -/
theorem express_interest_toggle_on_eq (db : DB) (u v : String) (now : Nat)
    (rnd : AgentRand) (cOk : Bool) (user : User) (venue : Venue)
    (hu : db.users.find? (fun x => x.id == u) = some user)
    (hv : db.venues.find? (fun x => x.id == v) = some venue)
    (hno : (db.interests.any fun i => i.user_id == u && i.venue_id == v) = false) :
    express_interest db u v now rnd cOk =
      .ok ({ success := true, message := "Interest recorded successfully",
             action_item_created := false },
           { db with
             interests := db.interests ++ [⟨u, v, now⟩],
             activities := db.activities ++
               [⟨s!"activity_{u}_{v}_{now}", u, v, "interested", now⟩] }) := by
  unfold express_interest
  rw [hu, hv, hno]
  simp only [Bool.false_eq_true, if_false]
  rw [action_item_agent_expires_at]
  split <;> rfl

/-- Whatever `express_interest` does, the committed state has the same
`action_items` list as before: the toggle transactions never touch that
table, and the creation branch is dead. -/
theorem express_interest_action_items (db : DB) (u v : String) (now : Nat)
    (rnd : AgentRand) (cOk : Bool) (r : InterestResponse) (db' : DB)
    (h : express_interest db u v now rnd cOk = .ok (r, db')) :
    db'.action_items = db.action_items := by
  cases hu : db.users.find? (fun x => x.id == u) with
  | none =>
    rw [express_interest_user_none db u v now rnd cOk hu] at h
    exact absurd h (by simp)
  | some user =>
    cases hv : db.venues.find? (fun x => x.id == v) with
    | none =>
      rw [express_interest_venue_none db u v now rnd cOk user hu hv] at h
      exact absurd h (by simp)
    | some venue =>
      cases hany : (db.interests.any fun i => i.user_id == u && i.venue_id == v) with
      | true =>
        rw [express_interest_toggle_off_eq db u v now rnd cOk user venue hu hv hany] at h
        simp only [Except.ok.injEq, Prod.mk.injEq] at h
        rw [← h.2]
      | false =>
        rw [express_interest_toggle_on_eq db u v now rnd cOk user venue hu hv hany] at h
        simp only [Except.ok.injEq, Prod.mk.injEq] at h
        rw [← h.2]

/-- `initiate_action_item` with an unknown item is a 404. -/
theorem initiate_item_none (db : DB) (i u : String) (now : Nat)
    (uuid : Nat → String)
    (hi : db.action_items.find? (fun a => a.id == i) = none) :
    initiate_action_item db i u now uuid =
      .error (.notFound s!"Action item {i} not found") := by
  unfold initiate_action_item
  rw [hi]

/-- `initiate_action_item` on a non-active item is a 400. -/
theorem initiate_not_active (db : DB) (i u : String) (now : Nat)
    (uuid : Nat → String) (item : ActionItem)
    (hi : db.action_items.find? (fun a => a.id == i) = some item)
    (hs : (item.status != "active") = true) :
    initiate_action_item db i u now uuid =
      .error (.badRequest s!"Action item is not active") := by
  unfold initiate_action_item
  rw [hi]
  simp only [hs, if_true]

/-- `initiate_action_item` by a non-interested user is a 403. -/
theorem initiate_not_member (db : DB) (i u : String) (now : Nat)
    (uuid : Nat → String) (item : ActionItem)
    (hi : db.action_items.find? (fun a => a.id == i) = some item)
    (hs : (item.status != "active") = false)
    (hm : item.interested_user_ids.contains u = false) :
    initiate_action_item db i u now uuid =
      .error (.forbidden "User not authorized for this action item") := by
  unfold initiate_action_item
  rw [hi]
  simp only [hs, hm, Bool.not_false, if_false, if_true, Bool.false_eq_true]

/-- `initiate_action_item` when confirmation rows already exist returns
them unchanged and writes nothing. -/
theorem initiate_existing_eq (db : DB) (i u : String) (now : Nat)
    (uuid : Nat → String) (item : ActionItem)
    (hi : db.action_items.find? (fun a => a.id == i) = some item)
    (hs : (item.status != "active") = false)
    (hm : item.interested_user_ids.contains u = true)
    (hex : (db.confirmations.filter (fun c => c.action_item_id == i)).isEmpty = false) :
    initiate_action_item db i u now uuid =
      .ok ((db.confirmations.filter (fun c => c.action_item_id == i)).map confToEntry,
           db) := by
  unfold initiate_action_item
  rw [hi]
  simp only [hs, hm, hex, Bool.false_eq_true, if_false, Bool.not_false, if_true,
    Bool.not_true, Bool.not_false]

/-- `initiate_action_item` on a fresh item bulk-creates one pending row
per interested user except the initiator. -/
theorem initiate_fresh_eq (db : DB) (i u : String) (now : Nat)
    (uuid : Nat → String) (item : ActionItem)
    (hi : db.action_items.find? (fun a => a.id == i) = some item)
    (hs : (item.status != "active") = false)
    (hm : item.interested_user_ids.contains u = true)
    (hex : (db.confirmations.filter (fun c => c.action_item_id == i)).isEmpty = true) :
    initiate_action_item db i u now uuid =
      .ok (((item.interested_user_ids.filter (fun uid => uid != u)).enum.map (fun p =>
              { id := uuid p.1, action_item_id := i, user_id := p.2,
                initiator_id := u, status := "pending", responded_at := none,
                created_at := now : Confirmation })).map confToEntry,
           { db with confirmations := db.confirmations ++
               (item.interested_user_ids.filter (fun uid => uid != u)).enum.map (fun p =>
                 { id := uuid p.1, action_item_id := i, user_id := p.2,
                   initiator_id := u, status := "pending", responded_at := none,
                   created_at := now : Confirmation }) }) := by
  unfold initiate_action_item
  rw [hi]
  simp only [hs, hm, hex, Bool.false_eq_true, if_false, Bool.not_false, if_true,
    Bool.not_true]

/-- `initiate_action_item` never touches `action_items`. -/
theorem initiate_action_items (db : DB) (i u : String) (now : Nat)
    (uuid : Nat → String) (r : List ConfEntry) (db' : DB)
    (h : initiate_action_item db i u now uuid = .ok (r, db')) :
    db'.action_items = db.action_items := by
  cases hi : db.action_items.find? (fun a => a.id == i) with
  | none =>
    rw [initiate_item_none db i u now uuid hi] at h
    exact absurd h (by simp)
  | some item =>
    cases hs : (item.status != "active") with
    | true =>
      rw [initiate_not_active db i u now uuid item hi hs] at h
      exact absurd h (by simp)
    | false =>
      cases hm : item.interested_user_ids.contains u with
      | false =>
        rw [initiate_not_member db i u now uuid item hi hs hm] at h
        exact absurd h (by simp)
      | true =>
        cases hex : (db.confirmations.filter (fun c => c.action_item_id == i)).isEmpty with
        | false =>
          rw [initiate_existing_eq db i u now uuid item hi hs hm hex] at h
          simp only [Except.ok.injEq, Prod.mk.injEq] at h
          rw [← h.2]
        | true =>
          rw [initiate_fresh_eq db i u now uuid item hi hs hm hex] at h
          simp only [Except.ok.injEq, Prod.mk.injEq] at h
          rw [← h.2]

/-- `confirm_action_item` with no confirmation row is a 404. -/
theorem confirm_no_row (db : DB) (i u : String) (now : Nat) (cu : String)
    (hc : db.confirmations.find?
      (fun c => c.action_item_id == i && c.user_id == u) = none) :
    confirm_action_item db i u now cu =
      .error (.notFound "Confirmation not found for this user") := by
  unfold confirm_action_item
  rw [hc]

/-- `confirm_action_item` on an already-responded row is a 400. -/
theorem confirm_not_pending (db : DB) (i u : String) (now : Nat) (cu : String)
    (conf : Confirmation)
    (hc : db.confirmations.find?
      (fun c => c.action_item_id == i && c.user_id == u) = some conf)
    (hs : (conf.status != "pending") = true) :
    confirm_action_item db i u now cu =
      .error (.badRequest s!"Already responded with status {conf.status}") := by
  unfold confirm_action_item
  rw [hc]
  simp only [hs, if_true]

/-- The confirmation table after the in-session update of
`confirm_action_item` or `decline_action_item` is committed. -/
def setConfStatus (db : DB) (i u st : String) (now : Nat) : List Confirmation :=
  db.confirmations.map (fun c =>
    if c.action_item_id == i && c.user_id == u then
      { c with status := st, responded_at := some now }
    else c)

/-- `confirm_action_item` when a chat already exists for the item: the row
is confirmed and the user is added to that chat; no chat is created. -/
theorem confirm_existing_chat_eq (db : DB) (i u : String) (now : Nat)
    (cu : String) (conf : Confirmation) (c : Chat)
    (hc : db.confirmations.find?
      (fun x => x.action_item_id == i && x.user_id == u) = some conf)
    (hs : (conf.status != "pending") = false)
    (hch : db.chats.find? (fun ch => ch.action_item_id == some i) = some c) :
    confirm_action_item db i u now cu =
      .ok ({ success := true,
             confirmed_count := (db.confirmations.filter
               (fun x => x.action_item_id == i && x.status == "confirmed")).length + 1 + 1,
             chat_created := false, chat_id := some c.id },
           { db with confirmations := setConfStatus db i u "confirmed" now,
                     chat_participants := db.chat_participants ++
                       [{ chat_id := c.id, user_id := u, joined_at := now }] }) := by
  unfold confirm_action_item
  rw [hc]
  simp only [hs, Bool.false_eq_true, if_false]
  rw [if_pos (by omega), hch]
  rfl

/-- `confirm_action_item` with no chat yet and an existing action item:
the row is confirmed and one chat is created, seeded with the initiator,
the previously confirmed users and the confirming user. -/
theorem confirm_new_chat_eq (db : DB) (i u : String) (now : Nat)
    (cu : String) (conf : Confirmation) (item : ActionItem)
    (hc : db.confirmations.find?
      (fun x => x.action_item_id == i && x.user_id == u) = some conf)
    (hs : (conf.status != "pending") = false)
    (hch : db.chats.find? (fun ch => ch.action_item_id == some i) = none)
    (hit : db.action_items.find? (fun a => a.id == i) = some item) :
    confirm_action_item db i u now cu =
      .ok ({ success := true,
             confirmed_count := (db.confirmations.filter
               (fun x => x.action_item_id == i && x.status == "confirmed")).length + 1 + 1,
             chat_created := true, chat_id := some cu },
           { db with confirmations := setConfStatus db i u "confirmed" now,
                     chats := db.chats ++
                       [{ id := cu, action_item_id := some i, venue_id := item.venue_id,
                          created_by := conf.initiator_id, created_at := now }],
                     chat_participants := db.chat_participants ++
                       [{ chat_id := cu, user_id := conf.initiator_id, joined_at := now }] ++
                       ((db.confirmations.filter
                           (fun x => x.action_item_id == i && x.status == "confirmed")).filter
                         (fun x => x.user_id != conf.initiator_id)).map (fun x =>
                           { chat_id := cu, user_id := x.user_id, joined_at := now }) ++
                       [{ chat_id := cu, user_id := u, joined_at := now }] }) := by
  unfold confirm_action_item
  rw [hc]
  simp only [hs, Bool.false_eq_true, if_false]
  rw [if_pos (by omega), hch, hit]
  rfl

/-- `confirm_action_item` with no chat and a missing action-item row: the
row is still confirmed, and no chat appears. -/
theorem confirm_no_item_eq (db : DB) (i u : String) (now : Nat)
    (cu : String) (conf : Confirmation)
    (hc : db.confirmations.find?
      (fun x => x.action_item_id == i && x.user_id == u) = some conf)
    (hs : (conf.status != "pending") = false)
    (hch : db.chats.find? (fun ch => ch.action_item_id == some i) = none)
    (hit : db.action_items.find? (fun a => a.id == i) = none) :
    confirm_action_item db i u now cu =
      .ok ({ success := true,
             confirmed_count := (db.confirmations.filter
               (fun x => x.action_item_id == i && x.status == "confirmed")).length + 1 + 1,
             chat_created := false, chat_id := none },
           { db with confirmations := setConfStatus db i u "confirmed" now }) := by
  unfold confirm_action_item
  rw [hc]
  simp only [hs, Bool.false_eq_true, if_false]
  rw [if_pos (by omega), hch, hit]
  rfl

/-- `confirm_action_item` never touches `action_items`. -/
theorem confirm_action_items (db : DB) (i u : String) (now : Nat)
    (cu : String) (r : ConfirmResponse) (db' : DB)
    (h : confirm_action_item db i u now cu = .ok (r, db')) :
    db'.action_items = db.action_items := by
  cases hc : db.confirmations.find?
      (fun c => c.action_item_id == i && c.user_id == u) with
  | none =>
    rw [confirm_no_row db i u now cu hc] at h
    exact absurd h (by simp)
  | some conf =>
    cases hs : (conf.status != "pending") with
    | true =>
      rw [confirm_not_pending db i u now cu conf hc hs] at h
      exact absurd h (by simp)
    | false =>
      cases hch : db.chats.find? (fun ch => ch.action_item_id == some i) with
      | some c =>
        rw [confirm_existing_chat_eq db i u now cu conf c hc hs hch] at h
        simp only [Except.ok.injEq, Prod.mk.injEq] at h
        rw [← h.2]
      | none =>
        cases hit : db.action_items.find? (fun a => a.id == i) with
        | some item =>
          rw [confirm_new_chat_eq db i u now cu conf item hc hs hch hit] at h
          simp only [Except.ok.injEq, Prod.mk.injEq] at h
          rw [← h.2]
        | none =>
          rw [confirm_no_item_eq db i u now cu conf hc hs hch hit] at h
          simp only [Except.ok.injEq, Prod.mk.injEq] at h
          rw [← h.2]

/-- `decline_action_item` with no confirmation row is a 404. -/
theorem decline_no_row (db : DB) (i u : String) (now : Nat)
    (hc : db.confirmations.find?
      (fun c => c.action_item_id == i && c.user_id == u) = none) :
    decline_action_item db i u now =
      .error (.notFound "Confirmation not found for this user") := by
  unfold decline_action_item
  rw [hc]

/-- `decline_action_item` on an already-responded row is a 400. -/
theorem decline_not_pending (db : DB) (i u : String) (now : Nat)
    (conf : Confirmation)
    (hc : db.confirmations.find?
      (fun c => c.action_item_id == i && c.user_id == u) = some conf)
    (hs : (conf.status != "pending") = true) :
    decline_action_item db i u now =
      .error (.badRequest s!"Already responded with status {conf.status}") := by
  unfold decline_action_item
  rw [hc]
  simp only [hs, if_true]

/-- `decline_action_item` on a pending row sets it to `declined`. -/
theorem decline_eq (db : DB) (i u : String) (now : Nat) (conf : Confirmation)
    (hc : db.confirmations.find?
      (fun c => c.action_item_id == i && c.user_id == u) = some conf)
    (hs : (conf.status != "pending") = false) :
    decline_action_item db i u now =
      .ok { db with confirmations := setConfStatus db i u "declined" now } := by
  unfold decline_action_item
  rw [hc]
  simp only [hs, Bool.false_eq_true, if_false]
  rfl

/-- `decline_action_item` never touches `action_items`. -/
theorem decline_action_items (db : DB) (i u : String) (now : Nat) (db' : DB)
    (h : decline_action_item db i u now = .ok db') :
    db'.action_items = db.action_items := by
  cases hc : db.confirmations.find?
      (fun c => c.action_item_id == i && c.user_id == u) with
  | none =>
    rw [decline_no_row db i u now hc] at h
    exact absurd h (by simp)
  | some conf =>
    cases hs : (conf.status != "pending") with
    | true =>
      rw [decline_not_pending db i u now conf hc hs] at h
      exact absurd h (by simp)
    | false =>
      rw [decline_eq db i u now conf hc hs] at h
      simp only [Except.ok.injEq] at h
      rw [← h]

/-- `dismiss_action_item` (DELETE) with an unknown item is a 404. -/
theorem dismiss_item_none (db : DB) (i u : String)
    (hi : db.action_items.find? (fun a => a.id == i) = none) :
    dismiss_action_item db i u =
      .error (.notFound s!"Action item {i} not found") := by
  unfold dismiss_action_item
  rw [hi]

/-- `dismiss_action_item` (DELETE) by a non-interested user is a 403. -/
theorem dismiss_not_member (db : DB) (i u : String) (item : ActionItem)
    (hi : db.action_items.find? (fun a => a.id == i) = some item)
    (hm : item.interested_user_ids.contains u = false) :
    dismiss_action_item db i u =
      .error (.forbidden "User not authorized for this action item") := by
  unfold dismiss_action_item
  rw [hi]
  simp only [hm, Bool.not_false, if_true]

/-- `dismiss_action_item` (DELETE) by an interested user succeeds from
any current status, setting the status to `dismissed` and leaving
`archived_at` as it was. -/
theorem dismiss_eq (db : DB) (i u : String) (item : ActionItem)
    (hi : db.action_items.find? (fun a => a.id == i) = some item)
    (hm : item.interested_user_ids.contains u = true) :
    dismiss_action_item db i u =
      .ok { db with action_items := db.action_items.map (fun a =>
              if a.id == i then { a with status := "dismissed" } else a) } := by
  unfold dismiss_action_item
  rw [hi]
  simp only [hm, Bool.not_true, Bool.false_eq_true, if_false]

/-- `dismiss_action_item_put` (PUT) with an unknown item is a 404. -/
theorem dismissPut_item_none (db : DB) (i u : String) (now : Nat)
    (hi : db.action_items.find? (fun a => a.id == i) = none) :
    dismiss_action_item_put db i u now =
      .error (.notFound s!"Action item {i} not found") := by
  unfold dismiss_action_item_put
  rw [hi]

/-- `dismiss_action_item_put` (PUT) by a non-interested user is a 403. -/
theorem dismissPut_not_member (db : DB) (i u : String) (now : Nat)
    (item : ActionItem)
    (hi : db.action_items.find? (fun a => a.id == i) = some item)
    (hm : item.interested_user_ids.contains u = false) :
    dismiss_action_item_put db i u now =
      .error (.forbidden "User not authorized for this action item") := by
  unfold dismiss_action_item_put
  rw [hi]
  simp only [hm, Bool.not_false, if_true]

/-- `dismiss_action_item_put` (PUT) by an interested user succeeds from
any current status, setting the status to `dismissed` and `archived_at`
to now. -/
theorem dismissPut_eq (db : DB) (i u : String) (now : Nat) (item : ActionItem)
    (hi : db.action_items.find? (fun a => a.id == i) = some item)
    (hm : item.interested_user_ids.contains u = true) :
    dismiss_action_item_put db i u now =
      .ok { db with action_items := db.action_items.map (fun a =>
              if a.id == i then
                { a with status := "dismissed", archived_at := some now }
              else a) } := by
  unfold dismiss_action_item_put
  rw [hi]
  simp only [hm, Bool.not_true, Bool.false_eq_true, if_false]

/-- `complete_action_item` with an unknown item is a 404. -/
theorem complete_item_none (db : DB) (i u : String)
    (hi : db.action_items.find? (fun a => a.id == i) = none) :
    complete_action_item db i u =
      .error (.notFound s!"Action item {i} not found") := by
  unfold complete_action_item
  rw [hi]

/-- `complete_action_item` by a non-interested user is a 403. -/
theorem complete_not_member (db : DB) (i u : String) (item : ActionItem)
    (hi : db.action_items.find? (fun a => a.id == i) = some item)
    (hm : item.interested_user_ids.contains u = false) :
    complete_action_item db i u =
      .error (.forbidden "User not authorized for this action item") := by
  unfold complete_action_item
  rw [hi]
  simp only [hm, Bool.not_false, if_true]

/-- `complete_action_item` by an interested user succeeds from any status,
setting the status to `completed`. -/
theorem complete_eq (db : DB) (i u : String) (item : ActionItem)
    (hi : db.action_items.find? (fun a => a.id == i) = some item)
    (hm : item.interested_user_ids.contains u = true) :
    complete_action_item db i u =
      .ok { db with action_items := db.action_items.map (fun a =>
              if a.id == i then { a with status := "completed" } else a) } := by
  unfold complete_action_item
  rw [hi]
  simp only [hm, Bool.not_true, Bool.false_eq_true, if_false]

end HelperLemmas

section C1

/-- A five-user, one-venue database: the smallest state in which the
threshold of `action_item_agent` can be crossed. -/
def c1db0 : DB :=
  { DB.empty with
    users := [⟨"u1", 0, 0⟩, ⟨"u2", 0, 0⟩, ⟨"u3", 0, 0⟩, ⟨"u4", 0, 0⟩, ⟨"u5", 0, 0⟩],
    venues := [⟨"v1", "Testaurant", "restaurant", 0, 0⟩] }

/-- Fixed random draws for the scenario. -/
def c1rnd : AgentRand := ⟨1234, 5678, 0⟩

/-- The state after users u1–u4 have toggled interest on for v1. -/
def c1db4 : DB :=
  applyOps [.toggle "u1" "v1" 1 c1rnd true, .toggle "u2" "v1" 2 c1rnd true,
            .toggle "u3" "v1" 3 c1rnd true, .toggle "u4" "v1" 4 c1rnd true] c1db0

/-- C1: after four distinct users toggle interest on, no action item
exists (as claimed); but when the fifth user toggles interest on, the
handler still creates **no** action item: `action_item_agent` returns a
dictionary without an `expires_at` key, `express_interest` reads
`agent_response["expires_at"]` while building the `ActionItemDB` row, and
the resulting `KeyError` is swallowed by the catch-all `except`, so the
response reports success with no action-item payload and the table stays
empty — contradicting the claimed creation of one active action item with
`expires_at = created_at + 90 days`. -/
theorem c1_fifth_toggle_creates_no_action_item :
    c1db4.action_items = [] ∧
    c1db4.interests.map (fun i => i.user_id) = ["u1", "u2", "u3", "u4"] ∧
    (Except.map (fun p => (p.1.success, p.1.action_item_created, p.2.action_items))
      (express_interest c1db4 "u5" "v1" 5 c1rnd true)).toOption =
      some (true, false, []) := by
  decide

end C1

section C2

/-- Invariant: no two action-item rows of the same venue are both
`active`. -/
def atMostOneActivePerVenue (db : DB) : Prop :=
  db.action_items.Pairwise
    (fun a b => a.status = "active" → b.status = "active" → a.venue_id ≠ b.venue_id)

instance (db : DB) : Decidable (atMostOneActivePerVenue db) := by
  unfold atMostOneActivePerVenue
  infer_instance

/-- Mapping a row transformation that preserves `venue_id` and never makes
a row `active` preserves the invariant. -/
theorem pairwise_map_status (l : List ActionItem) (f : ActionItem → ActionItem)
    (hs : ∀ a, (f a).status = "active" → a.status = "active")
    (hv : ∀ a, (f a).venue_id = a.venue_id)
    (h : l.Pairwise
      (fun a b => a.status = "active" → b.status = "active" → a.venue_id ≠ b.venue_id)) :
    (l.map f).Pairwise
      (fun a b => a.status = "active" → b.status = "active" → a.venue_id ≠ b.venue_id) := by
  refine List.Pairwise.map f (fun a b hab => ?_) h
  intro ha hb
  rw [hv a, hv b]
  exact hab (hs a ha) (hs b hb)

/-- Every single exposed operation preserves the invariant. -/
theorem applyOp_preserves_invariant (op : Op) (db : DB)
    (h : atMostOneActivePerVenue db) :
    atMostOneActivePerVenue (applyOp op db) := by
  unfold atMostOneActivePerVenue at h ⊢
  cases op with
  | toggle u v now rnd cOk =>
    simp only [applyOp]
    cases he : express_interest db u v now rnd cOk with
    | ok p =>
      rw [commitOf_ok, express_interest_action_items db u v now rnd cOk p.1 p.2 (by rw [he])]
      exact h
    | error e => rw [commitOf_error]; exact h
  | initiate i u now uuid =>
    simp only [applyOp]
    cases he : initiate_action_item db i u now uuid with
    | ok p =>
      rw [commitOf_ok, initiate_action_items db i u now uuid p.1 p.2 (by rw [he])]
      exact h
    | error e => rw [commitOf_error]; exact h
  | confirm i u now cu =>
    simp only [applyOp]
    cases he : confirm_action_item db i u now cu with
    | ok p =>
      rw [commitOf_ok, confirm_action_items db i u now cu p.1 p.2 (by rw [he])]
      exact h
    | error e => rw [commitOf_error]; exact h
  | decline i u now =>
    simp only [applyOp]
    cases he : decline_action_item db i u now with
    | ok db' =>
      rw [commitOf1_ok, decline_action_items db i u now db' he]
      exact h
    | error e => rw [commitOf1_error]; exact h
  | dismiss i u =>
    simp only [applyOp]
    cases hi : db.action_items.find? (fun a => a.id == i) with
    | none => rw [dismiss_item_none db i u hi, commitOf1_error]
              exact h
    | some item =>
      cases hm : item.interested_user_ids.contains u with
      | false => rw [dismiss_not_member db i u item hi hm, commitOf1_error]
                 exact h
      | true =>
        rw [dismiss_eq db i u item hi hm, commitOf1_ok]
        refine pairwise_map_status _ _ (fun a ha => ?_) (fun a => ?_) h
        · by_cases hid : (a.id == i) = true <;> simp [hid] at ha ⊢ <;> try exact ha
        · by_cases hid : (a.id == i) = true <;> simp [hid]
  | dismissPut i u now =>
    simp only [applyOp]
    cases hi : db.action_items.find? (fun a => a.id == i) with
    | none => rw [dismissPut_item_none db i u now hi, commitOf1_error]
              exact h
    | some item =>
      cases hm : item.interested_user_ids.contains u with
      | false => rw [dismissPut_not_member db i u now item hi hm, commitOf1_error]
                 exact h
      | true =>
        rw [dismissPut_eq db i u now item hi hm, commitOf1_ok]
        refine pairwise_map_status _ _ (fun a ha => ?_) (fun a => ?_) h
        · by_cases hid : (a.id == i) = true <;> simp [hid] at ha ⊢ <;> try exact ha
        · by_cases hid : (a.id == i) = true <;> simp [hid]
  | complete i u =>
    simp only [applyOp]
    cases hi : db.action_items.find? (fun a => a.id == i) with
    | none => rw [complete_item_none db i u hi, commitOf1_error]
              exact h
    | some item =>
      cases hm : item.interested_user_ids.contains u with
      | false => rw [complete_not_member db i u item hi hm, commitOf1_error]
                 exact h
      | true =>
        rw [complete_eq db i u item hi hm, commitOf1_ok]
        refine pairwise_map_status _ _ (fun a ha => ?_) (fun a => ?_) h
        · by_cases hid : (a.id == i) = true <;> simp [hid] at ha ⊢ <;> try exact ha
        · by_cases hid : (a.id == i) = true <;> simp [hid]
  | expire now =>
    simp only [applyOp]
    show List.Pairwise _ ((db.action_items.map (fun a =>
      if expireDue a now then { a with status := "expired", archived_at := some now }
      else a)))
    refine pairwise_map_status _ _ (fun a ha => ?_) (fun a => ?_) h
    · by_cases hd : expireDue a now = true <;> simp [hd] at ha ⊢ <;> try exact ha
    · by_cases hd : expireDue a now = true <;> simp [hd]

/-- C2: from any state satisfying the at-most-one-active-item-per-venue
invariant, every sequence of exposed operations (toggle interest,
initiate, confirm, decline, dismiss via either endpoint, complete, expire
sweep) leads only to states satisfying it; in particular no toggle-on ever
creates a second active action item for a venue that already has one (the
toggle path in fact creates none at all, its creation branch being dead on
the missing `expires_at` key). -/
theorem c2_at_most_one_active_per_venue (db : DB) (ops : List Op)
    (h : atMostOneActivePerVenue db) :
    atMostOneActivePerVenue (applyOps ops db) := by
  induction ops generalizing db with
  | nil => exact h
  | cons op rest ih => exact ih (applyOp op db) (applyOp_preserves_invariant op db h)

/-- C2 witness: the invariant holds after a concrete operation sequence
run from a state that already contains an active action item for the
venue and enough interest to cross the threshold again. -/
theorem c2_witness :
    atMostOneActivePerVenue
      (applyOps [Op.toggle "u5" "v1" 9 c1rnd true, Op.dismissPut "it1" "u1" 10,
                 Op.expire 11]
        { c1db4 with
          action_items := [⟨"it1", "v1", ["u1", "u2", "u3", "u4"], "book_venue",
                            "LUNA-v1-1", "d", true, "active", 4, some 90, none⟩] }) :=
  c2_at_most_one_active_per_venue _ _ (by decide)

end C2

section C3

/-- C3: a toggle-on whose interest and activity writes succeed always
returns `success = true` with the committed `Interest` and `Activity`
rows in place, whatever the agent randomness and whatever the outcome of
the action-item commit (`commitOk`): the action-item logic runs in a
separate transaction whose exception (here, unconditionally, the
`KeyError` on the missing `expires_at` key) or commit failure is caught
and never propagates to the caller. -/
theorem c3_toggle_on_success_isolated (db : DB) (u v : String) (now : Nat)
    (rnd : AgentRand) (commitOk : Bool) (user : User) (venue : Venue)
    (hu : db.users.find? (fun x => x.id == u) = some user)
    (hv : db.venues.find? (fun x => x.id == v) = some venue)
    (hno : (db.interests.any fun i => i.user_id == u && i.venue_id == v) = false) :
    onOk (express_interest db u v now rnd commitOk) (fun p =>
      p.1.success = true ∧
      (⟨u, v, now⟩ : Interest) ∈ p.2.interests ∧
      (⟨s!"activity_{u}_{v}_{now}", u, v, "interested", now⟩ : Activity)
        ∈ p.2.activities) := by
  rw [express_interest_toggle_on_eq db u v now rnd commitOk user venue hu hv hno]
  exact ⟨rfl, by simp, by simp⟩

/-- C3 witness: a concrete toggle-on with a failing action-item commit
still succeeds and keeps both rows. -/
theorem c3_witness :
    onOk (express_interest c1db0 "u1" "v1" 7 c1rnd false) (fun p =>
      p.1.success = true ∧
      (⟨"u1", "v1", 7⟩ : Interest) ∈ p.2.interests ∧
      (⟨"activity_u1_v1_7", "u1", "v1", "interested", 7⟩ : Activity)
        ∈ p.2.activities) :=
  c3_toggle_on_success_isolated c1db0 "u1" "v1" 7 c1rnd false
    ⟨"u1", 0, 0⟩ ⟨"v1", "Testaurant", "restaurant", 0, 0⟩
    (by decide) (by decide) (by decide)

end C3

section C9

/-- C9: starting from a state with no interest row and no `interested`
activity row for the pair, toggling twice restores the state exactly: the
first toggle adds exactly one interest row and one paired activity row,
and the second toggle deletes both, leaving the database equal to the
original. -/
theorem c9_double_toggle_roundtrip (db : DB) (u v : String)
    (now1 now2 : Nat) (rnd1 rnd2 : AgentRand) (cOk1 cOk2 : Bool)
    (user : User) (venue : Venue)
    (hu : db.users.find? (fun x => x.id == u) = some user)
    (hv : db.venues.find? (fun x => x.id == v) = some venue)
    (hni : (db.interests.any fun i => i.user_id == u && i.venue_id == v) = false)
    (hna : (db.activities.any fun a =>
      a.user_id == u && a.venue_id == v && a.action == "interested") = false) :
    onOk (express_interest db u v now1 rnd1 cOk1) (fun p =>
      p.2.interests.countP (fun i => i.user_id == u && i.venue_id == v) = 1 ∧
      p.2.activities.countP (fun a =>
        a.user_id == u && a.venue_id == v && a.action == "interested") = 1 ∧
      onOk (express_interest p.2 u v now2 rnd2 cOk2) (fun q => q.2 = db)) := by
  rw [express_interest_toggle_on_eq db u v now1 rnd1 cOk1 user venue hu hv hni]
  have hni' : ∀ i ∈ db.interests, ¬(i.user_id == u && i.venue_id == v) = true := by
    simpa using List.any_eq_false.mp hni
  have hna' : ∀ a ∈ db.activities,
      ¬(a.user_id == u && a.venue_id == v && a.action == "interested") = true := by
    simpa using List.any_eq_false.mp hna
  refine ⟨?_, ?_, ?_⟩
  · rw [List.countP_append, List.countP_eq_zero.mpr hni']
    simp
  · rw [List.countP_append, List.countP_eq_zero.mpr hna']
    simp
  · rw [express_interest_toggle_off_eq _ u v now2 rnd2 cOk2 user venue
      (by exact hu) (by exact hv) (by simp [List.any_append])]
    rw [onOk_ok]
    dsimp only
    have hfi : db.interests.filter
        (fun i => !(i.user_id == u && i.venue_id == v)) = db.interests :=
      List.filter_eq_self.mpr (fun i hi => by simp [hni' i hi])
    have hfa : db.activities.filter
        (fun a => !(a.user_id == u && a.venue_id == v && a.action == "interested")) =
        db.activities :=
      List.filter_eq_self.mpr (fun a ha => by simp [hna' a ha])
    have hfi1 : ([⟨u, v, now1⟩] : List Interest).filter
        (fun i => !(i.user_id == u && i.venue_id == v)) = [] := by simp
    have hfa1 : ([⟨s!"activity_{u}_{v}_{now1}", u, v, "interested", now1⟩] :
        List Activity).filter
        (fun a => !(a.user_id == u && a.venue_id == v && a.action == "interested")) = [] := by
      simp
    rw [List.filter_append, List.filter_append, hfi, hfa, hfi1, hfa1,
        List.append_nil, List.append_nil]

/-- C9 witness: a concrete double toggle on a fresh pair restores the
five-user demo database exactly. -/
theorem c9_witness :
    onOk (express_interest c1db0 "u2" "v1" 3 c1rnd true) (fun p =>
      p.2.interests.countP (fun i => i.user_id == "u2" && i.venue_id == "v1") = 1 ∧
      p.2.activities.countP (fun a =>
        a.user_id == "u2" && a.venue_id == "v1" && a.action == "interested") = 1 ∧
      onOk (express_interest p.2 "u2" "v1" 8 c1rnd false) (fun q => q.2 = c1db0)) :=
  c9_double_toggle_roundtrip c1db0 "u2" "v1" 3 8 c1rnd c1rnd true false
    ⟨"u2", 0, 0⟩ ⟨"v1", "Testaurant", "restaurant", 0, 0⟩
    (by decide) (by decide) (by decide) (by decide)

end C9

section C5

/-- C5: the Go-Ahead initiation flow.  (1) Initiating a non-active item
fails; (2) initiating as a user outside `interested_user_ids` fails;
(3) a first initiation creates exactly one pending confirmation row, with
the caller as initiator, per interested user except the caller, in order;
(4) a second initiation is idempotent: the state is unchanged and the
existing rows are returned as they are. -/
theorem c5_initiate_idempotent :
    (∀ (db : DB) (i u : String) (now : Nat) (uuid : Nat → String)
        (item : ActionItem),
      db.action_items.find? (fun a => a.id == i) = some item →
      item.status ≠ "active" →
      (initiate_action_item db i u now uuid).isOk = false)
  ∧ (∀ (db : DB) (i u : String) (now : Nat) (uuid : Nat → String)
        (item : ActionItem),
      db.action_items.find? (fun a => a.id == i) = some item →
      item.status = "active" →
      item.interested_user_ids.contains u = false →
      (initiate_action_item db i u now uuid).isOk = false)
  ∧ (∀ (db : DB) (i u : String) (now : Nat) (uuid : Nat → String)
        (item : ActionItem),
      db.action_items.find? (fun a => a.id == i) = some item →
      item.status = "active" →
      item.interested_user_ids.contains u = true →
      db.confirmations.filter (fun c => c.action_item_id == i) = [] →
      onOk (initiate_action_item db i u now uuid) (fun p =>
        (p.2.confirmations.filter (fun c => c.action_item_id == i)).map
            (fun c => (c.user_id, c.initiator_id, c.status)) =
          (item.interested_user_ids.filter (fun uid => uid != u)).map
            (fun w => (w, u, "pending"))))
  ∧ (∀ (db : DB) (i u : String) (now : Nat) (uuid : Nat → String)
        (item : ActionItem),
      db.action_items.find? (fun a => a.id == i) = some item →
      item.status = "active" →
      item.interested_user_ids.contains u = true →
      db.confirmations.filter (fun c => c.action_item_id == i) ≠ [] →
      onOk (initiate_action_item db i u now uuid) (fun p =>
        p.2 = db ∧
        p.1 = (db.confirmations.filter
          (fun c => c.action_item_id == i)).map confToEntry)) := by
  refine ⟨?_, ?_, ?_, ?_⟩
  · intro db i u now uuid item hi hs
    rw [initiate_not_active db i u now uuid item hi (by simpa using hs)]
    rfl
  · intro db i u now uuid item hi hs hm
    rw [initiate_not_member db i u now uuid item hi (by simp [hs]) hm]
    rfl
  · intro db i u now uuid item hi hs hm hex
    rw [initiate_fresh_eq db i u now uuid item hi (by simp [hs]) hm
      (by simp [hex])]
    rw [onOk_ok]
    dsimp only
    rw [List.filter_append, hex, List.nil_append]
    have hall : ((item.interested_user_ids.filter (fun uid => uid != u)).enum.map
        (fun p => { id := uuid p.1, action_item_id := i, user_id := p.2,
                    initiator_id := u, status := "pending", responded_at := none,
                    created_at := now : Confirmation })).filter
        (fun c => c.action_item_id == i) =
        (item.interested_user_ids.filter (fun uid => uid != u)).enum.map
        (fun p => { id := uuid p.1, action_item_id := i, user_id := p.2,
                    initiator_id := u, status := "pending", responded_at := none,
                    created_at := now : Confirmation }) := by
      refine List.filter_eq_self.mpr (fun c hc => ?_)
      obtain ⟨p, _, rfl⟩ := List.mem_map.mp hc
      simp
    rw [hall]
    have henum : ∀ (l : List String) (n : Nat),
        ((l.enumFrom n).map
          (fun p => { id := uuid p.1, action_item_id := i, user_id := p.2,
                      initiator_id := u, status := "pending", responded_at := none,
                      created_at := now : Confirmation })).map
          (fun c => (c.user_id, c.initiator_id, c.status)) =
        l.map (fun w => (w, u, "pending")) := by
      intro l
      induction l with
      | nil => intro n; rfl
      | cons x xs ih =>
        intro n
        simp only [List.enumFrom_cons, List.map_cons]
        exact congrArg _ (ih _)
    exact henum _ 0
  · intro db i u now uuid item hi hs hm hex
    rw [initiate_existing_eq db i u now uuid item hi (by simp [hs]) hm
      (by simpa using hex)]
    rw [onOk_ok]
    exact ⟨rfl, rfl⟩

/-- A five-plus-threshold action item used in the flow scenarios. -/
def c5item : ActionItem :=
  ⟨"it1", "v1", ["ua", "ub", "uc"], "book_venue", "LUNA-v1-1",
   "3 friends interested - coordinate plans!", true, "active", 0, some 90, none⟩

/-- An active item with no confirmation rows yet. -/
def c5dbFresh : DB := { DB.empty with action_items := [c5item] }

/-- The same item in the terminal state `completed`. -/
def c5dbDone : DB :=
  { DB.empty with action_items := [{ c5item with status := "completed" }] }

/-- The active item with one pending confirmation row already created. -/
def c5dbExisting : DB :=
  { DB.empty with
    action_items := [c5item],
    confirmations := [⟨"cf1", "it1", "ub", "ua", "pending", none, 1⟩] }

/-- Deterministic stand-in for `uuid.uuid4()` in the scenarios. -/
def c5uuid : Nat → String := fun n => s!"uuid{n}"

/-- C5 witness: the four branches of the initiation contract at concrete
inputs. -/
theorem c5_witness :
    (initiate_action_item c5dbDone "it1" "ua" 5 c5uuid).isOk = false ∧
    (initiate_action_item c5dbFresh "it1" "ux" 5 c5uuid).isOk = false ∧
    onOk (initiate_action_item c5dbFresh "it1" "ua" 5 c5uuid) (fun p =>
      (p.2.confirmations.filter (fun c => c.action_item_id == "it1")).map
          (fun c => (c.user_id, c.initiator_id, c.status)) =
        (c5item.interested_user_ids.filter (fun uid => uid != "ua")).map
          (fun w => (w, "ua", "pending"))) ∧
    onOk (initiate_action_item c5dbExisting "it1" "ub" 6 c5uuid) (fun p =>
      p.2 = c5dbExisting ∧
      p.1 = (c5dbExisting.confirmations.filter
        (fun c => c.action_item_id == "it1")).map confToEntry) :=
  ⟨c5_initiate_idempotent.1 c5dbDone "it1" "ua" 5 c5uuid
     { c5item with status := "completed" } (by decide) (by decide),
   c5_initiate_idempotent.2.1 c5dbFresh "it1" "ux" 5 c5uuid c5item
     (by decide) (by decide) (by decide),
   c5_initiate_idempotent.2.2.1 c5dbFresh "it1" "ua" 5 c5uuid c5item
     (by decide) (by decide) (by decide) (by decide),
   c5_initiate_idempotent.2.2.2 c5dbExisting "it1" "ub" 6 c5uuid c5item
     (by decide) (by decide) (by decide) (by decide)⟩

end C5

section C10

/-- C10: `confirm_action_item` enforces no precondition on the action
item's own status: (1) it fails when no confirmation row exists for the
user; (2) it fails when the row is not pending; (3) with a pending row it
succeeds, whatever the action item's status — even if the item row is
absent altogether; (4) with a pending row, no chat yet and an existing
item row of **any** status (dismissed, expired, completed included), it
auto-creates the chat. -/
theorem c10_confirm_ignores_item_status :
    (∀ (db : DB) (i u : String) (now : Nat) (cu : String),
      db.confirmations.find?
        (fun c => c.action_item_id == i && c.user_id == u) = none →
      (confirm_action_item db i u now cu).isOk = false)
  ∧ (∀ (db : DB) (i u : String) (now : Nat) (cu : String)
        (conf : Confirmation),
      db.confirmations.find?
        (fun c => c.action_item_id == i && c.user_id == u) = some conf →
      conf.status ≠ "pending" →
      (confirm_action_item db i u now cu).isOk = false)
  ∧ (∀ (db : DB) (i u : String) (now : Nat) (cu : String)
        (conf : Confirmation),
      db.confirmations.find?
        (fun c => c.action_item_id == i && c.user_id == u) = some conf →
      conf.status = "pending" →
      (confirm_action_item db i u now cu).isOk = true)
  ∧ (∀ (db : DB) (i u : String) (now : Nat) (cu : String)
        (conf : Confirmation) (item : ActionItem),
      db.confirmations.find?
        (fun c => c.action_item_id == i && c.user_id == u) = some conf →
      conf.status = "pending" →
      db.chats.find? (fun ch => ch.action_item_id == some i) = none →
      db.action_items.find? (fun a => a.id == i) = some item →
      onOk (confirm_action_item db i u now cu) (fun p =>
        p.1.chat_created = true)) := by
  refine ⟨?_, ?_, ?_, ?_⟩
  · intro db i u now cu hc
    rw [confirm_no_row db i u now cu hc]
    rfl
  · intro db i u now cu conf hc hs
    rw [confirm_not_pending db i u now cu conf hc (by simpa using hs)]
    rfl
  · intro db i u now cu conf hc hs
    cases hch : db.chats.find? (fun ch => ch.action_item_id == some i) with
    | some c =>
      rw [confirm_existing_chat_eq db i u now cu conf c hc (by simp [hs]) hch]
      rfl
    | none =>
      cases hit : db.action_items.find? (fun a => a.id == i) with
      | some item =>
        rw [confirm_new_chat_eq db i u now cu conf item hc (by simp [hs]) hch hit]
        rfl
      | none =>
        rw [confirm_no_item_eq db i u now cu conf hc (by simp [hs]) hch hit]
        rfl
  · intro db i u now cu conf item hc hs hch hit
    rw [confirm_new_chat_eq db i u now cu conf item hc (by simp [hs]) hch hit,
        onOk_ok]

/-- A dismissed action item whose Go-Ahead flow has a pending row: used to
witness that confirmation ignores the item status. -/
def c10db : DB :=
  { DB.empty with
    action_items := [{ c5item with status := "dismissed" }],
    confirmations := [⟨"cf1", "it1", "ub", "ua", "pending", none, 1⟩,
                      ⟨"cf2", "it1", "uc", "ua", "declined", some 2, 1⟩] }

/-- C10 witness: on a dismissed item, confirming a pending row succeeds
and auto-creates the chat; the missing-row and non-pending-row calls
fail. -/
theorem c10_witness :
    (confirm_action_item c10db "it1" "ux" 7 "chat1").isOk = false ∧
    (confirm_action_item c10db "it1" "uc" 7 "chat1").isOk = false ∧
    (confirm_action_item c10db "it1" "ub" 7 "chat1").isOk = true ∧
    onOk (confirm_action_item c10db "it1" "ub" 7 "chat1") (fun p =>
      p.1.chat_created = true) :=
  ⟨c10_confirm_ignores_item_status.1 c10db "it1" "ux" 7 "chat1" (by decide),
   c10_confirm_ignores_item_status.2.1 c10db "it1" "uc" 7 "chat1"
     ⟨"cf2", "it1", "uc", "ua", "declined", some 2, 1⟩ (by decide) (by decide),
   c10_confirm_ignores_item_status.2.2.1 c10db "it1" "ub" 7 "chat1"
     ⟨"cf1", "it1", "ub", "ua", "pending", none, 1⟩ (by decide) (by decide),
   c10_confirm_ignores_item_status.2.2.2 c10db "it1" "ub" 7 "chat1"
     ⟨"cf1", "it1", "ub", "ua", "pending", none, 1⟩
     { c5item with status := "dismissed" }
     (by decide) (by decide) (by decide) (by decide)⟩

end C10

section C4

/-- C4, first part: the first successful confirm of an action item — a
pending row, no confirmed rows yet, no chat linked to the item, the item
row present, and a fresh chat id — brings the total confirmed count
(confirmed rows + the confirming user + the implicitly confirmed
initiator) to exactly 2 and creates exactly one chat for the item, seeded
with exactly the initiator and the confirming user.  Second part: any
later confirm — one where a chat already exists for the item — adds the
confirming user to that chat and creates no second chat, regardless of
the order in which users confirm. -/
theorem c4_chat_created_exactly_once :
    (∀ (db : DB) (i u : String) (now : Nat) (cu : String)
        (conf : Confirmation) (item : ActionItem),
      db.confirmations.find?
        (fun c => c.action_item_id == i && c.user_id == u) = some conf →
      conf.status = "pending" →
      db.confirmations.filter
        (fun c => c.action_item_id == i && c.status == "confirmed") = [] →
      db.chats.find? (fun ch => ch.action_item_id == some i) = none →
      db.action_items.find? (fun a => a.id == i) = some item →
      db.chat_participants.filter (fun q => q.chat_id == cu) = [] →
      onOk (confirm_action_item db i u now cu) (fun p =>
        p.1.chat_created = true ∧
        p.1.confirmed_count = 2 ∧
        p.2.chats.filter (fun ch => ch.action_item_id == some i) =
          [⟨cu, some i, item.venue_id, conf.initiator_id, now⟩] ∧
        (p.2.chat_participants.filter (fun q => q.chat_id == cu)).map
            (fun q => q.user_id) = [conf.initiator_id, u]))
  ∧ (∀ (db : DB) (i u : String) (now : Nat) (cu : String)
        (conf : Confirmation) (c : Chat),
      db.confirmations.find?
        (fun c => c.action_item_id == i && c.user_id == u) = some conf →
      conf.status = "pending" →
      db.chats.find? (fun ch => ch.action_item_id == some i) = some c →
      onOk (confirm_action_item db i u now cu) (fun p =>
        p.1.chat_created = false ∧
        p.2.chats = db.chats ∧
        (⟨c.id, u, now⟩ : ChatParticipant) ∈ p.2.chat_participants)) := by
  constructor
  · intro db i u now cu conf item hc hs hconf0 hch hit hfresh
    rw [confirm_new_chat_eq db i u now cu conf item hc (by simp [hs]) hch hit,
        onOk_ok]
    dsimp only
    have hchn : db.chats.filter (fun ch => ch.action_item_id == some i) = [] :=
      List.filter_eq_nil_iff.mpr (fun ch hmem =>
        by simpa using List.find?_eq_none.mp hch ch hmem)
    refine ⟨rfl, by rw [hconf0]; rfl, ?_, ?_⟩
    · rw [List.filter_append, hchn, List.nil_append]
      simp
    · rw [hconf0]
      rw [List.filter_append, List.filter_append, List.filter_append, hfresh,
          List.nil_append]
      simp
  · intro db i u now cu conf c hc hs hch
    rw [confirm_existing_chat_eq db i u now cu conf c hc (by simp [hs]) hch,
        onOk_ok]
    exact ⟨rfl, rfl, by simp⟩

/-- The flow state right after initiation for the C4 scenario: pending
rows for ub and uc, initiator ua, no chat yet. -/
def c4db : DB :=
  { DB.empty with
    action_items := [c5item],
    confirmations := [⟨"cf1", "it1", "ub", "ua", "pending", none, 1⟩,
                      ⟨"cf2", "it1", "uc", "ua", "pending", none, 1⟩] }

/-- The flow state after ub's confirm created the chat: cf1 confirmed,
chat `chat1` linked to the item with ua and ub as participants. -/
def c4dbAfter : DB :=
  { DB.empty with
    action_items := [c5item],
    confirmations := [⟨"cf1", "it1", "ub", "ua", "confirmed", some 7, 1⟩,
                      ⟨"cf2", "it1", "uc", "ua", "pending", none, 1⟩],
    chats := [⟨"chat1", some "it1", "v1", "ua", 7⟩],
    chat_participants := [⟨"chat1", "ua", 7⟩, ⟨"chat1", "ub", 7⟩] }

/-- C4 witness: in the concrete flow, ub's confirm hits total 2 and
creates the one chat seeded with ua and ub; uc's later confirm joins that
chat and creates no second one. -/
theorem c4_witness :
    onOk (confirm_action_item c4db "it1" "ub" 7 "chat1") (fun p =>
      p.1.chat_created = true ∧
      p.1.confirmed_count = 2 ∧
      p.2.chats.filter (fun ch => ch.action_item_id == some "it1") =
        [⟨"chat1", some "it1", "v1", "ua", 7⟩] ∧
      (p.2.chat_participants.filter (fun q => q.chat_id == "chat1")).map
          (fun q => q.user_id) = ["ua", "ub"]) ∧
    onOk (confirm_action_item c4dbAfter "it1" "uc" 8 "chat2") (fun p =>
      p.1.chat_created = false ∧
      p.2.chats = c4dbAfter.chats ∧
      (⟨"chat1", "uc", 8⟩ : ChatParticipant) ∈ p.2.chat_participants) :=
  ⟨c4_chat_created_exactly_once.1 c4db "it1" "ub" 7 "chat1"
     ⟨"cf1", "it1", "ub", "ua", "pending", none, 1⟩ c5item
     (by decide) (by decide) (by decide) (by decide) (by decide) (by decide),
   c4_chat_created_exactly_once.2 c4dbAfter "it1" "uc" 8 "chat2"
     ⟨"cf2", "it1", "uc", "ua", "pending", none, 1⟩
     ⟨"chat1", some "it1", "v1", "ua", 7⟩
     (by decide) (by decide) (by decide)⟩

end C4

section C6

/-- A completed (terminal) action item for the dismissal counterexample. -/
def c6db : DB :=
  { DB.empty with
    action_items := [{ c5item with status := "completed" }] }

/-- C6 counterexample: the item is in the terminal state `completed`, yet
both dismissal endpoints gladly succeed — there is no non-terminal-state
guard — and the DELETE endpoint leaves `archived_at` unset, contradicting
the claim that dismissal is permitted only from a non-terminal state and
always sets `archived_at` to the current time. -/
theorem c6_counterexample :
    c6db.action_items.map (fun a => a.status) = ["completed"] ∧
    (dismiss_action_item_put c6db "it1" "ua" 9).isOk = true ∧
    (Except.map (fun db => db.action_items.map (fun a => (a.status, a.archived_at)))
      (dismiss_action_item c6db "it1" "ua")).toOption =
      some [("dismissed", none)] := by
  decide

/-- `find?` by id over an id-preserving row update finds the updated
row. -/
theorem find?_map_update (l : List ActionItem) (i : String)
    (f : ActionItem → ActionItem) (hid : ∀ a, (f a).id = a.id)
    (item : ActionItem)
    (h : l.find? (fun a => a.id == i) = some item) :
    (l.map f).find? (fun a => a.id == i) = some (f item) := by
  induction l with
  | nil => simp at h
  | cons x xs ih =>
    rw [List.map_cons]
    cases hx : x.id == i with
    | true =>
      have hfx : List.find? (fun a => a.id == i) (x :: xs) = some x := by
        simp [List.find?_cons, hx]
      rw [hfx] at h
      injection h with h
      have hgoal : List.find? (fun a => a.id == i) (f x :: List.map f xs) =
          some (f x) := by
        simp [List.find?_cons, hid, hx]
      rw [hgoal, h]
    | false =>
      have hfx : List.find? (fun a => a.id == i) (x :: xs) =
          List.find? (fun a => a.id == i) xs := by
        simp [List.find?_cons, hx]
      rw [hfx] at h
      have hgoal : List.find? (fun a => a.id == i) (f x :: List.map f xs) =
          List.find? (fun a => a.id == i) (List.map f xs) := by
        simp [List.find?_cons, hid, hx]
      rw [hgoal]
      exact ih h

/-- C6 amended: dismissal by a user in `interested_user_ids` succeeds from
**any** current state, terminal states included; the PUT endpoint sets
`status = dismissed` and `archived_at = now`, the DELETE endpoint sets
`status = dismissed` and leaves `archived_at` unchanged; users outside
`interested_user_ids` are rejected, as are unknown items. -/
theorem c6_amended_dismiss_behavior :
    (∀ (db : DB) (i u : String) (now : Nat) (item : ActionItem),
      db.action_items.find? (fun a => a.id == i) = some item →
      item.interested_user_ids.contains u = true →
      onOk (dismiss_action_item_put db i u now) (fun db' =>
        db'.action_items.find? (fun a => a.id == i) =
          some { item with status := "dismissed", archived_at := some now }))
  ∧ (∀ (db : DB) (i u : String) (item : ActionItem),
      db.action_items.find? (fun a => a.id == i) = some item →
      item.interested_user_ids.contains u = true →
      onOk (dismiss_action_item db i u) (fun db' =>
        db'.action_items.find? (fun a => a.id == i) =
          some { item with status := "dismissed" }))
  ∧ (∀ (db : DB) (i u : String) (now : Nat) (item : ActionItem),
      db.action_items.find? (fun a => a.id == i) = some item →
      item.interested_user_ids.contains u = false →
      (dismiss_action_item db i u).isOk = false ∧
      (dismiss_action_item_put db i u now).isOk = false)
  ∧ (∀ (db : DB) (i u : String) (now : Nat),
      db.action_items.find? (fun a => a.id == i) = none →
      (dismiss_action_item db i u).isOk = false ∧
      (dismiss_action_item_put db i u now).isOk = false) := by
  refine ⟨?_, ?_, ?_, ?_⟩
  · intro db i u now item hi hm
    rw [dismissPut_eq db i u now item hi hm, onOk_ok]
    have hpred := List.find?_some hi
    have hfind := find?_map_update db.action_items i
      (fun a => if a.id == i then
        { a with status := "dismissed", archived_at := some now } else a)
      (fun a => by by_cases hx : (a.id == i) = true <;> simp [hx]) item hi
    simpa [hpred] using hfind
  · intro db i u item hi hm
    rw [dismiss_eq db i u item hi hm, onOk_ok]
    have hpred := List.find?_some hi
    have hfind := find?_map_update db.action_items i
      (fun a => if a.id == i then { a with status := "dismissed" } else a)
      (fun a => by by_cases hx : (a.id == i) = true <;> simp [hx]) item hi
    simpa [hpred] using hfind
  · intro db i u now item hi hm
    rw [dismiss_not_member db i u item hi hm,
        dismissPut_not_member db i u now item hi hm]
    exact ⟨rfl, rfl⟩
  · intro db i u now hi
    rw [dismiss_item_none db i u hi, dismissPut_item_none db i u now hi]
    exact ⟨rfl, rfl⟩

/-- C6 witness: the amended behaviour at concrete inputs, dismissing the
already-completed item through both endpoints, and both rejections. -/
theorem c6_witness :
    onOk (dismiss_action_item_put c6db "it1" "ua" 9) (fun db' =>
      db'.action_items.find? (fun a => a.id == "it1") =
        some { c5item with status := "dismissed", archived_at := some 9 }) ∧
    onOk (dismiss_action_item c6db "it1" "ua") (fun db' =>
      db'.action_items.find? (fun a => a.id == "it1") =
        some { c5item with status := "dismissed" }) ∧
    ((dismiss_action_item c6db "it1" "ux").isOk = false ∧
      (dismiss_action_item_put c6db "it1" "ux" 9).isOk = false) ∧
    ((dismiss_action_item c6db "missing" "ua").isOk = false ∧
      (dismiss_action_item_put c6db "missing" "ua" 9).isOk = false) :=
  ⟨by
    have h := c6_amended_dismiss_behavior.1 c6db "it1" "ua" 9
      { c5item with status := "completed" } (by decide) (by decide)
    simpa using h,
   by
    have h := c6_amended_dismiss_behavior.2.1 c6db "it1" "ua"
      { c5item with status := "completed" } (by decide) (by decide)
    simpa using h,
   c6_amended_dismiss_behavior.2.2.1 c6db "it1" "ux" 9
     { c5item with status := "completed" } (by decide) (by decide),
   c6_amended_dismiss_behavior.2.2.2 c6db "missing" "ua" 9 (by decide)⟩

end C6

section Scoring

/-- If no friendship row pairs `u` with themself, the friend-id scan never
yields `u`. -/
theorem self_not_mem_friendIds (db : DB) (u : String)
    (hself : ∀ f ∈ db.friendships, ¬(f.user_id = u ∧ f.friend_id = u)) :
    ¬ u ∈ friendIdsOf db u := by
  intro hmem
  unfold friendIdsOf at hmem
  obtain ⟨f, hf, hfe⟩ := List.mem_filterMap.mp hmem
  by_cases h1 : (f.user_id == u) = true
  · simp only [h1, if_true] at hfe
    injection hfe with hfe
    exact hself f hf ⟨by simpa using h1, hfe⟩
  · simp only [h1, Bool.false_eq_true, if_false] at hfe
    by_cases h2 : (f.friend_id == u) = true
    · simp only [h2, if_true] at hfe
      injection hfe with hfe
      exact h1 (by simpa using hfe)
    · simp [h2] at hfe

/-- Deleting only rows owned by the requesting user (and whatever happens
to the activities table) never changes the recommendation score the code
computes for that user: the popularity factor already excludes the user's
own rows, the friend factor never counts them (the user is not their own
friend), and the category and proximity factors read no interest rows at
all. -/
theorem score_ignores_own_rows (dist : User → Venue → ℚ) (db : DB)
    (u v : String) (keep : Interest → Bool) (acts : List Activity)
    (hkeep : ∀ i ∈ db.interests, keep i = false → i.user_id = u)
    (hself : ∀ f ∈ db.friendships, ¬(f.user_id = u ∧ f.friend_id = u)) :
    (calculate_recommendation_score dist
      { db with interests := db.interests.filter keep, activities := acts } u v).score =
    (calculate_recommendation_score dist db u v).score := by
  have hcont : (friendIdsOf db u).contains u = false := by
    cases hc : (friendIdsOf db u).contains u with
    | false => rfl
    | true =>
      exact absurd (List.elem_iff.mp hc) (self_not_mem_friendIds db u hself)
  have hfids : friendIdsOf
      { db with interests := db.interests.filter keep, activities := acts } u =
      friendIdsOf db u := rfl
  have hOther : List.countP (fun i => i.venue_id == v && i.user_id != u)
      (db.interests.filter keep) =
      List.countP (fun i => i.venue_id == v && i.user_id != u) db.interests := by
    rw [List.countP_filter]
    refine List.countP_congr (fun a ha => ?_)
    cases hk : keep a with
    | true => simp [hk]
    | false =>
      have := hkeep a ha hk
      simp [hk, this]
  have hFriends : count_friends_interested
      { db with interests := db.interests.filter keep, activities := acts } u v =
      count_friends_interested db u v := by
    unfold count_friends_interested
    rw [hfids]
    dsimp only
    by_cases he : (friendIdsOf db u).isEmpty
    · rw [if_pos he, if_pos he]
    · rw [if_neg he, if_neg he]
      rw [List.countP_filter]
      refine List.countP_congr (fun a ha => ?_)
      cases hk : keep a with
      | true => simp [hk]
      | false =>
        have hua := hkeep a ha hk
        simp [hk, hua, hcont]
        exact fun _ => self_not_mem_friendIds db u hself
  unfold calculate_recommendation_score
  dsimp only
  cases hu : db.users.find? (fun x => x.id == u) with
  | none => rfl
  | some user =>
    cases hv : db.venues.find? (fun x => x.id == v) with
    | none => rfl
    | some venue =>
      dsimp only
      rw [hOther, hFriends]

/-- The state with the requesting user's own interest row for one venue
(and its paired `interested` activities) removed. -/
def removeOwnInterest (db : DB) (u v : String) : DB :=
  { db with
    interests := db.interests.filter
      (fun i => !(i.user_id == u && i.venue_id == v)),
    activities := db.activities.filter
      (fun a => !(a.user_id == u && a.venue_id == v && a.action == "interested")) }

end Scoring

section C7

/-- C7: the recommendation score of venue `v` computed for user `u` is
the same whether or not `u`'s own `Interest(u, v)` row (with its paired
activity) is present — provided no degenerate self-friendship row
`(u, u)` exists, for then the friend factor would count the user's own
row.  Popularity counts only other users, and category, friend and
proximity factors never read the user's own interest row. -/
theorem c7_score_self_independent (dist : User → Venue → ℚ) (db : DB)
    (u v : String)
    (hself : ∀ f ∈ db.friendships, ¬(f.user_id = u ∧ f.friend_id = u)) :
    (calculate_recommendation_score dist (removeOwnInterest db u v) u v).score =
    (calculate_recommendation_score dist db u v).score := by
  unfold removeOwnInterest
  refine score_ignores_own_rows dist db u v _ _ (fun i _ hk => ?_) hself
  have hk' : (i.user_id == u && i.venue_id == v) = true := by
    simpa using hk
  exact eq_of_beq (Bool.and_elim_left hk')

/-- A state where u1 is interested in v1, for the C7 witness. -/
def c7db : DB :=
  { c1db0 with
    interests := [⟨"u1", "v1", 1⟩, ⟨"u2", "v1", 1⟩],
    activities := [⟨"activity_u1_v1_1", "u1", "v1", "interested", 1⟩,
                   ⟨"activity_u2_v1_1", "u2", "v1", "interested", 1⟩],
    friendships := [⟨"u1", "u2"⟩] }

/-- C7 witness: removing u1's own interest row for v1 leaves u1's score
for v1 unchanged in the concrete state. -/
theorem c7_witness :
    (calculate_recommendation_score (fun _ _ => 0) (removeOwnInterest c7db "u1" "v1")
      "u1" "v1").score =
    (calculate_recommendation_score (fun _ _ => 0) c7db "u1" "v1").score :=
  c7_score_self_independent (fun _ _ => 0) c7db "u1" "v1" (by decide)

end C7

section C8

/-- Both computations succeed and their results are related by `P`;
failure of either refutes. -/
def onOk2 {ε α : Type _} (e1 e2 : Except ε α) (P : α → α → Prop) : Prop :=
  match e1, e2 with
  | .ok a, .ok b => P a b
  | _, _ => False

theorem onOk2_ok {ε α : Type _} (a b : α) (P : α → α → Prop) :
    onOk2 (.ok a : Except ε α) (.ok b : Except ε α) P = P a b := rfl

/-- The state with every interest row of the requesting user (and the
paired `interested` activities) removed. -/
def removeAllOwnInterests (db : DB) (u : String) : DB :=
  { db with
    interests := db.interests.filter (fun i => !(i.user_id == u)),
    activities := db.activities.filter
      (fun a => !(a.user_id == u && a.action == "interested")) }

/-- Projecting each entry to its `(venue_id, score)` key commutes with
the sort, because the comparator reads only the score. -/
theorem map_key_mergeSort (l : List RecEntry) :
    (l.mergeSort (fun a b => decide (b.score ≤ a.score))).map
      (fun r => (r.venue_id, r.score)) =
    (l.map (fun r => (r.venue_id, r.score))).mergeSort
      (fun p q => decide (q.2 ≤ p.2)) :=
  List.map_mergeSort (fun _ _ _ _ => rfl)

/-- C8, first part: for every user the recommendation list is sorted by
descending (rounded) score — each entry's score is at least the next
one's.  Second part: the induced venue ordering, i.e. the sorted list of
`(venue_id, score)` keys, is identical whether or not the requesting
user's own interest rows exist, so the `already_interested` flag has no
influence on positions (no self-friendship row assumed, as in C7). -/
theorem c8_sorted_desc_and_self_independent :
    (∀ (dist : User → Venue → ℚ) (db : DB) (u : String) (user : User),
      db.users.find? (fun x => x.id == u) = some user →
      onOk (get_recommendations dist db u) (fun recs =>
        recs.Pairwise (fun a b => b.score ≤ a.score)))
  ∧ (∀ (dist : User → Venue → ℚ) (db : DB) (u : String) (user : User),
      db.users.find? (fun x => x.id == u) = some user →
      (∀ f ∈ db.friendships, ¬(f.user_id = u ∧ f.friend_id = u)) →
      onOk2 (get_recommendations dist db u)
            (get_recommendations dist (removeAllOwnInterests db u) u)
        (fun l1 l2 => l1.map (fun r => (r.venue_id, r.score)) =
                      l2.map (fun r => (r.venue_id, r.score)))) := by
  constructor
  · intro dist db u user hu
    unfold get_recommendations
    rw [hu]
    dsimp only
    rw [onOk_ok]
    refine List.Pairwise.imp (fun hab => of_decide_eq_true hab)
      (List.sorted_mergeSort ?_ ?_ _)
    · intro a b c hab hbc
      exact decide_eq_true (le_trans (of_decide_eq_true hbc) (of_decide_eq_true hab))
    · intro a b
      rcases le_total b.score a.score with h | h
      · rw [decide_eq_true h, Bool.true_or]
      · rw [decide_eq_true h, Bool.or_true]
  · intro dist db u user hu hself
    unfold get_recommendations removeAllOwnInterests
    dsimp only
    rw [hu]
    dsimp only
    rw [onOk2_ok]
    rw [map_key_mergeSort, map_key_mergeSort]
    refine congrArg
      (fun l : List (String × ℚ) => l.mergeSort (fun p q => decide (q.2 ≤ p.2))) ?_
    rw [List.map_map, List.map_map]
    refine List.map_congr_left (fun venue hmem => ?_)
    dsimp only [Function.comp]
    have hs := score_ignores_own_rows dist db u venue.id
      (fun i => !(i.user_id == u))
      (db.activities.filter (fun a => !(a.user_id == u && a.action == "interested")))
      (fun i _ hk => by simpa using hk) hself
    rw [Prod.mk.injEq]
    exact ⟨rfl, congrArg round1 hs.symm⟩

/-- C8 witness: the two parts at the concrete state of C7 (u1 interested
in v1, a friendship with u2, no self-friendship). -/
theorem c8_witness :
    onOk (get_recommendations (fun _ _ => 0) c7db "u1") (fun recs =>
      recs.Pairwise (fun a b => b.score ≤ a.score)) ∧
    onOk2 (get_recommendations (fun _ _ => 0) c7db "u1")
          (get_recommendations (fun _ _ => 0) (removeAllOwnInterests c7db "u1") "u1")
      (fun l1 l2 => l1.map (fun r => (r.venue_id, r.score)) =
                    l2.map (fun r => (r.venue_id, r.score))) :=
  ⟨c8_sorted_desc_and_self_independent.1 (fun _ _ => 0) c7db "u1" ⟨"u1", 0, 0⟩
     (by decide),
   c8_sorted_desc_and_self_independent.2 (fun _ _ => 0) c7db "u1" ⟨"u1", 0, 0⟩
     (by decide) (by decide)⟩

end C8

end Luna
